import Mathlib

/-!
Shallow embedding of the grapefruit DHT crawler (src/crawler.py and src/app.py).

The engine state (`CrawlerState`) collects the mutable attributes of
`DHTCrawler` / `GrapefruitDHTCrawler` together with event logs for the
observable effects (messages sent over the transport, values delivered via
`peers_values_received`, searchers started, pacing sleeps, records inserted
into the torrent collection).  Byte-strings (node ids, info-hashes, addresses)
are modelled as natural numbers or Lean `String`s; randomness drawn from
`SystemRandom` is supplied through explicit oracle arguments.  The helpers
from `utils.py` and the bencode codec are not part of `src/`; where an
operation depends on them they are modelled from the spec (each such
definition carries a doc comment saying so).
-/

namespace Grapefruit

/-- A DHT node, `utils.Node` `(id, host, port)`; the 160-bit id and the IPv4
address are modelled as natural numbers. -/
structure Node where
  id : Nat
  host : Nat
  port : Nat
deriving DecidableEq

/-- A compact peer address `(host, port)`. -/
abbrev Peer := Nat × Nat

/-- `Searcher = namedtuple("searcher", ["info_hash", "nodes", "values",
"attempts_count", "timestamp"])` (src/crawler.py line 11).  The timestamp is
wall-clock seconds. -/
structure Searcher where
  info_hash : Nat
  nodes : Finset Node
  values : Finset Peer
  attempts_count : Int
  timestamp : Nat
deriving DecidableEq

/-- Body of a KRPC reply sent by the query handler (src/crawler.py lines
197-250); the random `token` of the `get_peers` reply is abstracted away. -/
inductive RespBody
  | pingR (id : Nat)
  | findNodeR (id : Nat) (nodes : List Node)
  | getPeersR (id : Nat) (nodes : List Node)
  | announceR (id : Nat)
deriving DecidableEq

/-- An outbound message recorded on the transport (`send_message` calls).
Randomly generated transaction ids and query ids are abstracted away;
`findNode` records the target (`none` = fresh random target), `getPeers`
records the searcher transaction id. -/
inductive SentMsg
  | findNode (addr : Peer) (target : Option Nat)
  | getPeers (addr : Peer) (info_hash : Nat) (t : Option Nat)
  | response (addr : Peer) (t : Nat) (body : RespBody)
  | error (addr : Peer) (code : Nat) (emsg : String) (t : Option Nat)
deriving DecidableEq

/-- The `a` dictionary of an inbound query; every field is optional because a
missing key raises `KeyError` at its access site. -/
structure QArgs where
  id : Option Nat
  target : Option Nat
  info_hash : Option Nat
  port : Option Nat
deriving DecidableEq

/-- The `r` dictionary of an inbound reply.  `nodes` and `values` model the
output of `decode_nodes(args.get("nodes", b""))` and
`decode_values(args.get("values", []))`; the compact codec lives in the absent
`utils.py`, so the decoded lists are carried directly (a missing key decodes
to the empty list). -/
structure RArgs where
  id : Option Nat
  nodes : List Node
  values : List Peer
deriving DecidableEq

/-- A decoded inbound bencode dictionary.  Only the keys the engine reads are
modelled; each is optional because Python raises `KeyError` on access. -/
structure Msg where
  y : Option String
  t : Option Nat
  q : Option String
  a : Option QArgs
  r : Option RArgs
deriving DecidableEq

/-- One file entry of a torrent info dictionary. -/
structure FileEntry where
  length : Nat
  path : List String
deriving DecidableEq

/-- A decoded torrent info dictionary as produced by the metadata fetcher
(`torrent.py`, out of scope); `load_torrent` reads the keys `files`,
`length` and `name`, each raising `KeyError` when absent. -/
structure TorrentDict where
  files : Option (List FileEntry)
  length : Option Nat
  name : Option String
deriving DecidableEq

/-- The record inserted into the `torrents` collection
(src/app.py lines 67-72). -/
structure TorrentMeta where
  info_hash : Nat
  files : List FileEntry
  name : String
  timestamp : Nat
deriving DecidableEq

/-- Outputs of the `SystemRandom` calls made while handling one datagram:
`coin` is `utils.get_rand_bool()`, `victim` is `random.sample(rt, 1)[0]`,
`dropIdx` is `random.randrange(len(candidates))` and `sampled` is
`random.sample(nodes, min(len(nodes), 8))`. -/
structure ROracle where
  coin : Bool
  victim : Node
  dropIdx : Nat
  sampled : List Node

/-- The mutable state of `GrapefruitDHTCrawler` (the app subclass of
`DHTCrawler`) plus logs of its observable effects.  `db_torrents` models the
external torrents collection, `sent` the transport, `delivered` the
`peers_values_received` events, `starts` the `search_peers` invocations and
`sleeps` the pacing sleeps. -/
structure CrawlerState where
  node_id : Nat
  interval : ℚ
  bootstrap_nodes : List Peer
  routing_table : List (Finset Node)
  candidates : List (List Node)
  searchers : List (Nat × Searcher)
  searchers_seq : Nat
  torrent_in_progress : Finset Nat
  db_torrents : List TorrentMeta
  sent : List SentMsg
  delivered : List (Nat × Finset Peer)
  starts : List Nat
  sleeps : List ℚ
  now : Nat
deriving DecidableEq

/-- Base-2 logarithm by fuel-bounded halving (kernel-computable; the fuel
`n` itself always suffices). -/
def log2fuel : Nat → Nat → Nat
  | 0, _ => 0
  | fuel + 1, n => if 2 ≤ n then log2fuel fuel (n / 2) + 1 else 0

/-- Modelled from the spec: `utils.get_routing_table_index` maps an XOR
distance to the position of its highest set bit, i.e. bit-length minus one
(spec §3, §4.3; a distance of zero means the node is the local node, a case
no claim exercises). -/
def get_routing_table_index (d : Nat) : Nat := log2fuel d d

/-- Closeness order used to model `utils.fetch_k_closest_nodes`: XOR distance
to the target first, ties broken by id (spec §4.3), then by host and port so
that the order is total and antisymmetric on full node records. -/
def nodeLe (target : Nat) (a b : Node) : Prop :=
  Nat.xor a.id target < Nat.xor b.id target ∨
    (Nat.xor a.id target = Nat.xor b.id target ∧
      (a.id < b.id ∨ (a.id = b.id ∧
        (a.host < b.host ∨ (a.host = b.host ∧ a.port ≤ b.port)))))

instance (target : Nat) : DecidableRel (nodeLe target) :=
  fun a b => by unfold nodeLe; exact inferInstance

instance (target : Nat) : IsTrans Node (nodeLe target) :=
  ⟨by intro a b c h1 h2; unfold nodeLe at *; omega⟩

instance (target : Nat) : IsAntisymm Node (nodeLe target) :=
  ⟨by intro a b h1 h2; cases a; cases b; unfold nodeLe at h1 h2; simp_all; omega⟩

instance (target : Nat) : IsTotal Node (nodeLe target) :=
  ⟨by intro a b; unfold nodeLe; omega⟩

/-- Sort the members of a multiset of nodes by `nodeKey`; insertion sort is
structurally recursive, so this evaluates inside the kernel, and antisymmetry
of `nodeLe` makes the result independent of the representative list. -/
def sortNodes (target : Nat) (m : Multiset Node) : List Node :=
  Quot.liftOn m (fun l => List.insertionSort (nodeLe target) l)
    (fun a b h => List.eq_of_perm_of_sorted
      (((List.perm_insertionSort _ a).trans h).trans (List.perm_insertionSort _ b).symm)
      (List.sorted_insertionSort _ a) (List.sorted_insertionSort _ b))

/-- Modelled from the spec: `utils.fetch_k_closest_nodes` returns the `k`
members of the node set with smallest XOR distance to `target`, ties broken
by id (spec §4.3). -/
def fetch_k_closest_nodes (nodes : Finset Node) (target : Nat) (k : Nat) : List Node :=
  (sortNodes target nodes.1).take k

/-- Modelled from the spec: `utils.decode_bytes` recursively decodes raw
byte-strings to text (spec §4.8e, best-effort UTF-8).  Byte-strings are
modelled as Lean `String`s already, so the decode is the identity on the
model. -/
def decode_bytes (files : List FileEntry) : List FileEntry := files

/-- `DHTCrawler.add_node` (src/crawler.py lines 105-116).  `coin` is the
`get_rand_bool()` draw and `victim` the uniformly-random member returned by
`random.sample(rt, 1)[0]` in the eviction branch. -/
def add_node (s : CrawlerState) (node : Node) (coin : Bool) (victim : Node) : CrawlerState :=
  let r_table_index := get_routing_table_index (Nat.xor node.id s.node_id)
  let rt := s.routing_table.getD r_table_index ∅
  if rt.card < 1600 then
    { s with routing_table := s.routing_table.set r_table_index (insert node rt) }
  else if coin = true ∧ node ∉ rt then
    { s with routing_table := s.routing_table.set r_table_index (rt.erase victim) }
  else
    { s with sent := s.sent ++ [SentMsg.findNode (node.host, node.port) none] }

/-- The candidate-pool update in the unknown-transaction branch of
`DHTCrawler.handle_response` (src/crawler.py lines 182-185): drop the entry
at the random index `i` when the pool is full, then append the sampled batch
at the end. -/
def candidateStep (cs : List (List Node)) (batch : List Node) (i : Nat) : List (List Node) :=
  if 16000 ≤ cs.length then cs.eraseIdx i ++ [batch] else cs ++ [batch]

/-- The first while-loop of `DHTCrawler.get_closest_nodes` (src/crawler.py
lines 93-96): walk bucket indices downward from the home index, unioning the
per-bucket closest nodes while fewer than `k` have been gathered. -/
def gather_down (tbl : List (Finset Node)) (target k : Nat) : Nat → Finset Node → Finset Node
  | idx, acc =>
    if acc.card < k then
      let acc2 := acc ∪ (fetch_k_closest_nodes (tbl.getD idx ∅) target k).toFinset
      match idx with
      | 0 => acc2
      | j + 1 => gather_down tbl target k j acc2
    else acc

/-- The second while-loop of `DHTCrawler.get_closest_nodes` (src/crawler.py
lines 98-101): walk bucket indices upward while below 160 and fewer than `k`
gathered; `fuel` bounds the walk (started at 160, enough to reach the top). -/
def gather_up (tbl : List (Finset Node)) (target k : Nat) : Nat → Nat → Finset Node → Finset Node
  | 0, _, acc => acc
  | fuel + 1, idx, acc =>
    if idx < 160 ∧ acc.card < k then
      gather_up tbl target k fuel (idx + 1)
        (acc ∪ (fetch_k_closest_nodes (tbl.getD idx ∅) target k).toFinset)
    else acc

/-- `DHTCrawler.get_closest_nodes` (src/crawler.py lines 87-103). -/
def get_closest_nodes (s : CrawlerState) (target : Nat) (k_value : Nat) : List Node :=
  let r_table_idx := get_routing_table_index (Nat.xor s.node_id target)
  let closest_l := gather_down s.routing_table target k_value r_table_idx ∅
  let closest_r := gather_up s.routing_table target k_value 160 (r_table_idx + 1) ∅
  fetch_k_closest_nodes (closest_l ∪ closest_r) target k_value

/-- `DHTCrawler.update_peers_searcher` (src/crawler.py lines 130-152).  The
transaction id `t` is the natural number whose 4-byte big-endian encoding is
the wire id.  Probes in the continue branch iterate the closest list (the
code iterates the same elements as a set). -/
def update_peers_searcher (s : CrawlerState) (t : Nat) (nodes : Finset Node)
    (values : Finset Peer) : CrawlerState :=
  match s.searchers.lookup t with
  | none => s
  | some sr =>
    let spop := { s with searchers := s.searchers.filter (fun p => p.1 != t) }
    let new_nodes := sr.nodes ∪ nodes
    let new_values := sr.values ∪ values
    let new_closest_list := fetch_k_closest_nodes new_nodes sr.info_hash 16
    let new_closest := new_closest_list.toFinset
    let old_closest := (fetch_k_closest_nodes sr.nodes sr.info_hash 16).toFinset
    let attempts_count :=
      if new_closest = old_closest then sr.attempts_count - 1 else sr.attempts_count
    if 0 < attempts_count then
      { spop with
        searchers := spop.searchers ++
          [(t, ⟨sr.info_hash, new_nodes, new_values, attempts_count, sr.timestamp⟩)],
        sent := spop.sent ++ new_closest_list.map
          (fun n => SentMsg.getPeers (n.host, n.port) sr.info_hash (some t)) }
    else
      { spop with delivered := spop.delivered ++ [(sr.info_hash, new_values)] }

/-- `DHTCrawler.search_peers` (src/crawler.py lines 118-128): advance the
wrapping sequence counter, register a fresh searcher (attempts 8, created
now) under the new transaction id, log the start, and probe the 16 closest
known nodes. -/
def search_peers (s : CrawlerState) (info_hash : Nat) : CrawlerState :=
  let seq := if 2 ^ 32 - 1 ≤ s.searchers_seq then 0 else s.searchers_seq + 1
  let t := seq
  let closest := get_closest_nodes s info_hash 16
  { s with
    searchers_seq := seq,
    searchers := s.searchers.filter (fun p => p.1 != t) ++
      [(t, ⟨info_hash, ∅, ∅, 8, s.now⟩)],
    starts := s.starts ++ [info_hash],
    sent := s.sent ++ closest.map
      (fun n => SentMsg.getPeers (n.host, n.port) info_hash (some t)) }

/-- `GrapefruitDHTCrawler.is_torrent_exists` (src/app.py lines 36-38): a
count-by-info-hash probe of the torrents collection. -/
def is_torrent_exists (s : CrawlerState) (info_hash : Nat) : Bool :=
  s.db_torrents.any (fun m => m.info_hash == info_hash)

/-- `GrapefruitDHTCrawler.enqueue_torrent` (src/app.py lines 89-96): drop if
the info-hash is already in progress or already stored, else mark it in
progress and start a searcher. -/
def enqueue_torrent (s : CrawlerState) (info_hash : Nat) : CrawlerState :=
  if info_hash ∉ s.torrent_in_progress ∧ is_torrent_exists s info_hash = false then
    search_peers { s with torrent_in_progress := insert info_hash s.torrent_in_progress }
      info_hash
  else s

/-- `GrapefruitDHTCrawler.announce_peer_received` (src/app.py lines 101-102). -/
def announce_peer_received (s : CrawlerState) (node_id info_hash : Nat) (port : Option Nat)
    (addr : Peer) : CrawlerState :=
  enqueue_torrent s info_hash

/-- `GrapefruitDHTCrawler.get_peers_received` (src/app.py lines 98-99). -/
def get_peers_received (s : CrawlerState) (node_id info_hash : Nat) (addr : Peer) :
    CrawlerState :=
  enqueue_torrent s info_hash

/-- A required dictionary access: `some` passes the value through, `none` is
Python's `KeyError`. -/
def req {α : Type} : Option α → Except Unit α
  | some a => .ok a
  | none => .error ()

/-- Whether a handler body escaped with an exception. -/
def exceptFails (e : Except Unit CrawlerState) : Bool :=
  match e with
  | .error _ => true
  | .ok _ => false

/-- `DHTCrawler.handle_query` (src/crawler.py lines 190-253) with the hooks
overridden by `GrapefruitDHTCrawler` inlined (`get_peers_received` and
`announce_peer_received` enqueue the torrent; the other hooks are no-ops).
Key accesses happen in source order, so a branch that raises sends nothing;
an unknown query type sends nothing but still inserts the sender. -/
def handle_query (s : CrawlerState) (msg : Msg) (addr : Peer) (r : ROracle) :
    Except Unit CrawlerState := do
  let args ← req msg.a
  let node_id ← req args.id
  let query_type ← req msg.q
  let s1 ←
    if query_type = "ping" then do
      let t ← req msg.t
      pure { s with sent := s.sent ++ [SentMsg.response addr t (RespBody.pingR s.node_id)] }
    else if query_type = "find_node" then do
      let target_node_id ← req args.target
      let t ← req msg.t
      pure { s with sent := s.sent ++
        [SentMsg.response addr t (RespBody.findNodeR s.node_id (get_closest_nodes s target_node_id 8))] }
    else if query_type = "get_peers" then do
      let info_hash ← req args.info_hash
      let t ← req msg.t
      let sr := { s with sent := s.sent ++
        [SentMsg.response addr t (RespBody.getPeersR s.node_id (get_closest_nodes s info_hash 8))] }
      pure (get_peers_received sr node_id info_hash addr)
    else if query_type = "announce_peer" then do
      let info_hash ← req args.info_hash
      let port := args.port
      let t ← req msg.t
      let sr := { s with sent := s.sent ++
        [SentMsg.response addr t (RespBody.announceR s.node_id)] }
      pure (announce_peer_received sr node_id info_hash port addr)
    else pure s
  let s2 := add_node s1 ⟨node_id, addr.1, addr.2⟩ r.coin r.victim
  pure { s2 with sleeps := s2.sleeps ++ [s2.interval] }

/-- `DHTCrawler.handle_response` (src/crawler.py lines 171-188): route on the
transaction id into the searcher registry, else harvest a sampled batch into
the candidate pool; always insert the sender and pace. -/
def handle_response (s : CrawlerState) (msg : Msg) (addr : Peer) (r : ROracle) :
    Except Unit CrawlerState := do
  let args ← req msg.r
  let t ← req msg.t
  let node_id ← req args.id
  let nodes : Finset Node := args.nodes.toFinset
  let values : Finset Peer := args.values.toFinset
  let s1 :=
    if (s.searchers.lookup t).isSome then
      update_peers_searcher s t nodes values
    else
      { s with candidates := candidateStep s.candidates r.sampled r.dropIdx }
  let s2 := add_node s1 ⟨node_id, addr.1, addr.2⟩ r.coin r.victim
  pure { s2 with sleeps := s2.sleeps ++ [s2.interval] }

/-- The `try` body of `DHTCrawler.handle_message` (src/crawler.py lines
155-161): dispatch on the `y` field (absent decodes as the empty string);
unknown types are ignored. -/
def handle_message_body (s : CrawlerState) (msg : Msg) (addr : Peer) (r : ROracle) :
    Except Unit CrawlerState :=
  let msg_type := msg.y.getD ""
  if msg_type = "r" then handle_response s msg addr r
  else if msg_type = "q" then handle_query s msg addr r
  else .ok s

/-- `DHTCrawler.handle_message` (src/crawler.py lines 154-169): on any
exception from the body, send the KRPC error `[202, "Server Error"]` echoing
`t` (empty when absent) and re-raise; the boolean records whether the
exception propagated out of the handler. -/
def handle_message (s : CrawlerState) (msg : Msg) (addr : Peer) (r : ROracle) :
    CrawlerState × Bool :=
  match handle_message_body s msg addr r with
  | .ok s1 => (s1, false)
  | .error _ =>
    ({ s with sent := s.sent ++ [SentMsg.error addr 202 "Server Error" msg.t] }, true)

/-- `DHTCrawler.datagram_received` (src/crawler.py lines 39-44) composed with
the task it spawns: `decoded` is the result of `bdecode` (the codec is the
external bencode library), `none` meaning `BTFailure`, which is swallowed
with no reply and no state change. -/
def datagram_received (s : CrawlerState) (decoded : Option Msg) (addr : Peer) (r : ROracle) :
    CrawlerState × Bool :=
  match decoded with
  | none => (s, false)
  | some msg => handle_message s msg addr r

/-- The outcome of one peer attempt inside `GrapefruitDHTCrawler.load_torrent`
(src/app.py lines 49-60): the connect/handshake raised, the fetch future
resolved falsy, or it produced a decoded info dictionary. -/
inductive FetchOutcome
  | exc
  | noTorrent
  | torrent (t : TorrentDict)

/-- The metadata record built at src/app.py lines 62-72: take `files` when
present, else normalize `{length, name}` to `[{length, path: [name]}]`;
`none` is the `KeyError` of a missing key (caught by the per-peer handler). -/
def build_metadata (info_hash : Nat) (now : Nat) (t : TorrentDict) : Option TorrentMeta :=
  match t.files with
  | some fs => do
      let n ← t.name
      pure ⟨info_hash, decode_bytes fs, n, now⟩
  | none => do
      let len ← t.length
      let n ← t.name
      pure ⟨info_hash, decode_bytes [⟨len, [n]⟩], n, now⟩

/-- One iteration of the peer loop of `GrapefruitDHTCrawler.load_torrent`
(src/app.py lines 48-85): exceptions and falsy results advance to the next
peer; a decoded torrent is stored unless the info-hash already exists, and
either way the loop breaks (the boolean). -/
def process_peer (s : CrawlerState) (info_hash : Nat) (o : FetchOutcome) :
    CrawlerState × Bool :=
  match o with
  | .exc => (s, false)
  | .noTorrent => (s, false)
  | .torrent t =>
    match build_metadata info_hash s.now t with
    | none => (s, false)
    | some metadata =>
      if is_torrent_exists s info_hash then (s, true)
      else ({ s with db_torrents := s.db_torrents ++ [metadata] }, true)

/-- Whether a peer outcome ends the loop (`break` reached), i.e. a truthy
torrent whose required keys are present. -/
def fetch_ok : FetchOutcome → Bool
  | .torrent t =>
    match t.files with
    | some _ => t.name.isSome
    | none => t.length.isSome && t.name.isSome
  | _ => false

/-- The peer iteration of `load_torrent`; returns the final state and the
list of peers actually contacted (in order). -/
def load_torrent_loop (s : CrawlerState) (info_hash : Nat) (outcome : Peer → FetchOutcome) :
    List Peer → CrawlerState × List Peer
  | [] => (s, [])
  | p :: rest =>
    let step := process_peer s info_hash (outcome p)
    if step.2 then (step.1, [p])
    else
      let cont := load_torrent_loop step.1 info_hash outcome rest
      (cont.1, p :: cont.2)

/-- `GrapefruitDHTCrawler.load_torrent` (src/app.py lines 40-87): iterate the
peers, then in the `finally` clause remove the info-hash from the in-progress
set; `none` models the `KeyError` that `set.remove` raises when the info-hash
is not in the set. -/
def load_torrent (s : CrawlerState) (info_hash : Nat) (outcome : Peer → FetchOutcome)
    (peers : List Peer) : Option (CrawlerState × List Peer) :=
  let run := load_torrent_loop s info_hash outcome peers
  if info_hash ∈ run.1.torrent_in_progress then
    some ({ run.1 with torrent_in_progress := run.1.torrent_in_progress.erase info_hash },
      run.2)
  else none

/-- The candidate drain of `DHTCrawler.auto_find_nodes` (src/crawler.py lines
264-265): pop `count` batches at the successive random indices `idxs`,
extending the accumulator. -/
def drain_candidates : Nat → List Nat → List (List Node) → List Node →
    List (List Node) × List Node
  | 0, _, cs, acc => (cs, acc)
  | n + 1, idxs, cs, acc =>
    let i := idxs.headD 0
    let batch := cs.getD i []
    drain_candidates n idxs.tail (cs.eraseIdx i) (acc ++ batch)

/-- One iteration of `DHTCrawler.auto_find_nodes` (src/crawler.py lines
258-274): sleep `interval`, probe the closest nodes to a random target plus
up to 7 drained candidate batches, then sweep searchers whose age (Python
`timedelta.seconds`, i.e. seconds modulo one day) is at least 60, delivering
their values and removing them. -/
def auto_find_nodes_tick (s : CrawlerState) (target_id : Nat) (idxs : List Nat) :
    CrawlerState :=
  let s0 := { s with sleeps := s.sleeps ++ [s.interval] }
  let nodes := get_closest_nodes s0 target_id 8
  let drained := drain_candidates (min s0.candidates.length 7) idxs s0.candidates []
  let allNodes := nodes ++ drained.2
  let s1 := { s0 with
    candidates := drained.1,
    sent := s0.sent ++ allNodes.map
      (fun (n : Node) => SentMsg.findNode (n.host, n.port) (some target_id)) }
  let expiredL := s1.searchers.filter
    (fun (p : Nat × Searcher) => decide (60 ≤ (s1.now - p.2.timestamp) % 86400))
  { s1 with
    searchers := s1.searchers.filter
      (fun (p : Nat × Searcher) => decide ((s1.now - p.2.timestamp) % 86400 < 60)),
    delivered := s1.delivered ++ expiredL.map
      (fun (p : Nat × Searcher) => (p.2.info_hash, p.2.values)) }

/-- `DHTCrawler.__init__` (src/crawler.py lines 15-30) as a state builder;
`interval` and the clock origin are passed explicitly. -/
def initState (bootstrap_nodes : List Peer) (node_id : Nat) (interval : ℚ) (now : Nat) :
    CrawlerState :=
  { node_id := node_id
    interval := interval
    bootstrap_nodes := bootstrap_nodes
    routing_table := List.replicate 160 ∅
    candidates := []
    searchers := []
    searchers_seq := 0
    torrent_in_progress := ∅
    db_torrents := []
    sent := []
    delivered := []
    starts := []
    sleeps := []
    now := now }

/-- The default of the `interval` keyword of `DHTCrawler.__init__`
(src/crawler.py line 15): `interval=0.001`, i.e. one millisecond. -/
def defaultInterval : ℚ := 1 / 1000

/-- Construction without specifying `interval`: the Python default applies. -/
def initStateDefault (bootstrap_nodes : List Peer) (node_id : Nat) : CrawlerState :=
  initState bootstrap_nodes node_id defaultInterval 0

/-- Apply a sequence of response rounds for transaction `t` to the engine. -/
def processRounds (s : CrawlerState) (t : Nat) :
    List (Finset Node × Finset Peer) → CrawlerState
  | [] => s
  | (n, v) :: rest => processRounds (update_peers_searcher s t n v) t rest

/-- Whether a response carrying the node set `n` is a stale round for the
searcher at `t`: the 16-closest set of the enlarged node set equals that of
the old node set (vacuously true when no searcher is registered at `t`). -/
def staleRoundB (s : CrawlerState) (t : Nat) (n : Finset Node) : Bool :=
  match s.searchers.lookup t with
  | none => true
  | some sr =>
    decide ((fetch_k_closest_nodes (sr.nodes ∪ n) sr.info_hash 16).toFinset =
      (fetch_k_closest_nodes sr.nodes sr.info_hash 16).toFinset)

/-- All rounds of the sequence are stale, each with respect to the state the
previous rounds produced. -/
def StaleAllB (s : CrawlerState) (t : Nat) : List (Finset Node × Finset Peer) → Bool
  | [] => true
  | (n, v) :: rest => staleRoundB s t n && StaleAllB (update_peers_searcher s t n v) t rest

/-- The union of a starting peer set with all values of a round sequence. -/
def unionValues (v : Finset Peer) : List (Finset Node × Finset Peer) → Finset Peer
  | [] => v
  | (_, w) :: rest => unionValues (v ∪ w) rest

section LookupLemmas

variable {β : Type}

theorem lookup_filter_self (l : List (Nat × β)) (t : Nat) :
    (l.filter (fun p => p.1 != t)).lookup t = none := by
  induction l with
  | nil => rfl
  | cons hd tl ih =>
    by_cases h : hd.1 = t
    · subst h
      simp only [List.filter_cons, bne_self_eq_false, Bool.false_eq_true, if_false]
      exact ih
    · have hb : (hd.1 != t) = true := by simp [h]
      have hb2 : (t == hd.1) = false := by simp [Ne.symm h]
      simp only [List.filter_cons, hb, if_true, List.lookup, hb2]
      exact ih

theorem lookup_filter_ne (l : List (Nat × β)) {u t : Nat} (h : u ≠ t) :
    (l.filter (fun p => p.1 != t)).lookup u = l.lookup u := by
  induction l with
  | nil => rfl
  | cons hd tl ih =>
    by_cases h1 : hd.1 = t
    · subst h1
      have hb2 : (u == hd.1) = false := by simp [h]
      simp only [List.filter_cons, bne_self_eq_false, Bool.false_eq_true, if_false,
        List.lookup, hb2]
      exact ih
    · have hb : (hd.1 != t) = true := by simp [h1]
      by_cases h2 : u = hd.1
      · simp only [List.filter_cons, hb, if_true, List.lookup, h2, beq_self_eq_true]
      · have hb2 : (u == hd.1) = false := by simp [h2]
        simp only [List.filter_cons, hb, if_true, List.lookup, hb2]
        exact ih

theorem lookup_append (l1 l2 : List (Nat × β)) (a : Nat) :
    (l1 ++ l2).lookup a = ((l1.lookup a).or (l2.lookup a)) := by
  induction l1 with
  | nil => simp [List.lookup]
  | cons hd tl ih =>
    by_cases h : a = hd.1
    · simp only [List.cons_append, List.lookup, h, beq_self_eq_true, Option.or]
    · have hb : (a == hd.1) = false := by simp [h]
      simp only [List.cons_append, List.lookup, hb]
      exact ih

theorem lookup_reinsert_self (l : List (Nat × β)) (t : Nat) (v : β) :
    ((l.filter (fun p => p.1 != t)) ++ [(t, v)]).lookup t = some v := by
  rw [lookup_append, lookup_filter_self]
  simp [List.lookup]

theorem lookup_reinsert_ne (l : List (Nat × β)) {u t : Nat} (h : u ≠ t) (v : β) :
    ((l.filter (fun p => p.1 != t)) ++ [(t, v)]).lookup u = l.lookup u := by
  rw [lookup_append, lookup_filter_ne l h]
  have hb : (u == t) = false := by simp [h]
  cases h2 : l.lookup u with
  | none => simp [List.lookup, hb]
  | some w => simp

end LookupLemmas

/-!  ### Claims -/

/-- Helper for C1: the evict branch of `add_node` (full bucket, coin success,
node absent) removes the random victim from the bucket and nothing else. -/
theorem add_node_evict_branch (s : CrawlerState) (node victim : Node)
    (hfull : ¬ (s.routing_table.getD (get_routing_table_index (Nat.xor node.id s.node_id)) ∅).card
      < 1600)
    (hnot : node ∉ s.routing_table.getD (get_routing_table_index (Nat.xor node.id s.node_id)) ∅) :
    (add_node s node true victim).routing_table =
      s.routing_table.set (get_routing_table_index (Nat.xor node.id s.node_id))
        ((s.routing_table.getD (get_routing_table_index (Nat.xor node.id s.node_id)) ∅).erase
          victim) := by
  simp only [add_node]
  rw [if_neg hfull, if_pos ⟨trivial, hnot⟩]

/-- C1: on a full bucket with a successful coin and a new node, `add_node`
evicts the random victim but never inserts the new node: the bucket ends at
1599 entries without `n`, contradicting the claimed evict-and-add behaviour
(src/crawler.py lines 109-116; the `node not in rt` guard and spec §4.3 show
the insert was intended). -/
theorem add_node_full_bucket_evicts_without_adding (s : CrawlerState) (node victim : Node)
    (hcard : (s.routing_table.getD (get_routing_table_index (Nat.xor node.id s.node_id)) ∅).card
      = 1600)
    (hnode : node ∉ s.routing_table.getD (get_routing_table_index (Nat.xor node.id s.node_id)) ∅)
    (hvic : victim ∈ s.routing_table.getD (get_routing_table_index (Nat.xor node.id s.node_id)) ∅) :
    (add_node s node true victim).routing_table.getD
        (get_routing_table_index (Nat.xor node.id s.node_id)) ∅ =
      (s.routing_table.getD (get_routing_table_index (Nat.xor node.id s.node_id)) ∅).erase victim ∧
    node ∉ (add_node s node true victim).routing_table.getD
        (get_routing_table_index (Nat.xor node.id s.node_id)) ∅ ∧
    ((add_node s node true victim).routing_table.getD
        (get_routing_table_index (Nat.xor node.id s.node_id)) ∅).card = 1599 := by
  have hlt : get_routing_table_index (Nat.xor node.id s.node_id) < s.routing_table.length := by
    by_contra hge
    push_neg at hge
    rw [List.getD_eq_default _ _ hge] at hcard
    simp at hcard
  have hbucket : (add_node s node true victim).routing_table.getD
      (get_routing_table_index (Nat.xor node.id s.node_id)) ∅ =
      (s.routing_table.getD (get_routing_table_index (Nat.xor node.id s.node_id)) ∅).erase
        victim := by
    rw [add_node_evict_branch s node victim (by omega) hnode]
    simp [List.getD, List.getElem?_set_eq_of_lt _ hlt]
  refine ⟨hbucket, ?_, ?_⟩
  · rw [hbucket]
    intro hmem
    exact hnode (Finset.mem_of_mem_erase hmem)
  · rw [hbucket, Finset.card_erase_of_mem hvic, hcard]

/-- The 1600-node bucket used as the concrete failing input of C1. -/
def bigBucket : Finset Node := (Finset.range 1600).image (fun i => ⟨2048 + i, 0, 0⟩)

/-- The engine state holding `bigBucket` in bucket 11 of an otherwise empty
routing table, local node id 0. -/
def wState1 : CrawlerState :=
  { initStateDefault [] 0 with
    routing_table := (List.replicate 160 (∅ : Finset Node)).set 11 bigBucket }

theorem bigBucket_card : bigBucket.card = 1600 := by
  unfold bigBucket
  rw [Finset.card_image_of_injective _ ?_, Finset.card_range]
  intro a b h
  simp only [Node.mk.injEq] at h
  omega

theorem wState1_bucket : wState1.routing_table.getD 11 ∅ = bigBucket := rfl

theorem add_node_full_bucket_evicts_without_adding_witness :
    ((wState1.routing_table.getD
        (get_routing_table_index (Nat.xor (3648 : Nat) wState1.node_id)) ∅).card = 1600 ∧
      (⟨3648, 0, 0⟩ : Node) ∉ wState1.routing_table.getD
        (get_routing_table_index (Nat.xor (3648 : Nat) wState1.node_id)) ∅ ∧
      (⟨2048, 0, 0⟩ : Node) ∈ wState1.routing_table.getD
        (get_routing_table_index (Nat.xor (3648 : Nat) wState1.node_id)) ∅) ∧
    ((add_node wState1 ⟨3648, 0, 0⟩ true ⟨2048, 0, 0⟩).routing_table.getD
        (get_routing_table_index (Nat.xor (3648 : Nat) wState1.node_id)) ∅ =
      (wState1.routing_table.getD
        (get_routing_table_index (Nat.xor (3648 : Nat) wState1.node_id)) ∅).erase ⟨2048, 0, 0⟩ ∧
    (⟨3648, 0, 0⟩ : Node) ∉ (add_node wState1 ⟨3648, 0, 0⟩ true ⟨2048, 0, 0⟩).routing_table.getD
        (get_routing_table_index (Nat.xor (3648 : Nat) wState1.node_id)) ∅ ∧
    ((add_node wState1 ⟨3648, 0, 0⟩ true ⟨2048, 0, 0⟩).routing_table.getD
        (get_routing_table_index (Nat.xor (3648 : Nat) wState1.node_id)) ∅).card = 1599) := by
  have hidx : get_routing_table_index (Nat.xor (3648 : Nat) wState1.node_id) = 11 := by decide
  have h1 : (wState1.routing_table.getD
      (get_routing_table_index (Nat.xor (3648 : Nat) wState1.node_id)) ∅).card = 1600 := by
    rw [hidx, wState1_bucket]; exact bigBucket_card
  have h2 : (⟨3648, 0, 0⟩ : Node) ∉ wState1.routing_table.getD
      (get_routing_table_index (Nat.xor (3648 : Nat) wState1.node_id)) ∅ := by
    rw [hidx, wState1_bucket]
    unfold bigBucket
    simp only [Finset.mem_image, Finset.mem_range, Node.mk.injEq]
    rintro ⟨i, hi, hEq, -, -⟩
    omega
  have h3 : (⟨2048, 0, 0⟩ : Node) ∈ wState1.routing_table.getD
      (get_routing_table_index (Nat.xor (3648 : Nat) wState1.node_id)) ∅ := by
    rw [hidx, wState1_bucket]
    unfold bigBucket
    simp only [Finset.mem_image, Finset.mem_range]
    exact ⟨0, by omega, rfl⟩
  exact ⟨⟨h1, h2, h3⟩,
    add_node_full_bucket_evicts_without_adding wState1 ⟨3648, 0, 0⟩ ⟨2048, 0, 0⟩ h1 h2 h3⟩

/-- C8: the candidate pool never exceeds 16000 entries: one insertion step
preserves the bound, and when the pool is exactly full it drops the element
at the random index and appends the new batch at the end
(src/crawler.py lines 182-185). -/
theorem candidate_pool_bounded (cs : List (List Node)) (batch : List Node) (i : Nat)
    (hlen : cs.length ≤ 16000) (hi : 16000 ≤ cs.length → i < cs.length) :
    (candidateStep cs batch i).length ≤ 16000 ∧
    (cs.length = 16000 → candidateStep cs batch i = cs.eraseIdx i ++ [batch]) := by
  unfold candidateStep
  by_cases h : 16000 ≤ cs.length
  · have hi2 := hi h
    rw [if_pos h]
    constructor
    · rw [List.length_append, List.length_eraseIdx_of_lt hi2]
      simp
      omega
    · intro _; rfl
  · rw [if_neg h]
    constructor
    · simp
      omega
    · intro hEq; omega

theorem candidate_pool_bounded_witness :
    ((List.replicate 16000 ([] : List Node)).length ≤ 16000 ∧
      (16000 ≤ (List.replicate 16000 ([] : List Node)).length →
        0 < (List.replicate 16000 ([] : List Node)).length)) ∧
    ((candidateStep (List.replicate 16000 ([] : List Node)) [⟨1, 2, 3⟩] 0).length ≤ 16000 ∧
      ((List.replicate 16000 ([] : List Node)).length = 16000 →
        candidateStep (List.replicate 16000 ([] : List Node)) [⟨1, 2, 3⟩] 0 =
          (List.replicate 16000 ([] : List Node)).eraseIdx 0 ++ [[⟨1, 2, 3⟩]])) := by
  have h1 : (List.replicate 16000 ([] : List Node)).length ≤ 16000 := by
    rw [List.length_replicate]
  have h2 : 16000 ≤ (List.replicate 16000 ([] : List Node)).length →
      0 < (List.replicate 16000 ([] : List Node)).length := by
    rw [List.length_replicate]
    omega
  exact ⟨⟨h1, h2⟩, candidate_pool_bounded _ _ 0 h1 h2⟩

/-- C9 counterexample: constructed without specifying `interval`, the
engine's interval is 0.001 s, not the claimed 50 ms (src/crawler.py line
15). -/
theorem default_interval_not_50ms : (initStateDefault [] 0).interval ≠ 1 / 20 := by
  norm_num [initStateDefault, initState, defaultInterval]

/-- C9 (amended): each tick of the auto-discovery loop sleeps `interval`
seconds, and the default of `interval` when the engine is constructed without
specifying it is 0.001 s (1 ms); the 50 ms figure is the value the
application shell passes explicitly. -/
theorem auto_loop_ticks_interval_default_1ms (bs : List Peer) (nid : Nat)
    (s : CrawlerState) (target : Nat) (idxs : List Nat) :
    (initStateDefault bs nid).interval = 1 / 1000 ∧
    (auto_find_nodes_tick s target idxs).sleeps = s.sleeps ++ [s.interval] ∧
    (auto_find_nodes_tick s target idxs).interval = s.interval :=
  ⟨rfl, rfl, rfl⟩

/-- C3: with the info-hash neither in progress nor stored, the first
`announce_peer` admission starts exactly one searcher and marks the hash in
progress; an immediately following admission for the same hash is a complete
no-op, and no admission ever starts a searcher when the hash already exists
in the store (src/app.py lines 89-102). -/
theorem announce_enqueue_exactly_once (s : CrawlerState) (ih n1 n2 : Nat)
    (p1 p2 : Option Nat) (a1 a2 : Peer)
    (h1 : ih ∉ s.torrent_in_progress)
    (h2 : is_torrent_exists s ih = false) :
    (announce_peer_received s n1 ih p1 a1).starts = s.starts ++ [ih] ∧
    ih ∈ (announce_peer_received s n1 ih p1 a1).torrent_in_progress ∧
    announce_peer_received (announce_peer_received s n1 ih p1 a1) n2 ih p2 a2 =
      announce_peer_received s n1 ih p1 a1 ∧
    (∀ (s0 : CrawlerState) (n : Nat) (p : Option Nat) (a : Peer),
      is_torrent_exists s0 ih = true → announce_peer_received s0 n ih p a = s0) := by
  have hcond : ih ∉ s.torrent_in_progress ∧ is_torrent_exists s ih = false := ⟨h1, h2⟩
  refine ⟨?_, ?_, ?_, ?_⟩
  · simp [announce_peer_received, enqueue_torrent, if_pos hcond, search_peers]
  · simp [announce_peer_received, enqueue_torrent, if_pos hcond, search_peers]
  · have hmem : ih ∈ (announce_peer_received s n1 ih p1 a1).torrent_in_progress := by
      simp [announce_peer_received, enqueue_torrent, if_pos hcond, search_peers]
    simp [announce_peer_received]
    rw [enqueue_torrent]
    rw [if_neg]
    intro hc
    exact hc.1 hmem
  · intro s0 n p a hex
    rw [announce_peer_received, enqueue_torrent, if_neg]
    intro hc
    rw [hex] at hc
    exact absurd hc.2 (by simp)

theorem announce_enqueue_exactly_once_witness :
    ((5 : Nat) ∉ (initStateDefault [] 0).torrent_in_progress ∧
      is_torrent_exists (initStateDefault [] 0) 5 = false) ∧
    ((announce_peer_received (initStateDefault [] 0) 1 5 none (0, 0)).starts =
        (initStateDefault [] 0).starts ++ [5] ∧
      (5 : Nat) ∈ (announce_peer_received (initStateDefault [] 0) 1 5 none (0, 0)).torrent_in_progress ∧
      announce_peer_received (announce_peer_received (initStateDefault [] 0) 1 5 none (0, 0))
          2 5 none (3, 3) =
        announce_peer_received (initStateDefault [] 0) 1 5 none (0, 0) ∧
      (∀ (s0 : CrawlerState) (n : Nat) (p : Option Nat) (a : Peer),
        is_torrent_exists s0 5 = true → announce_peer_received s0 n 5 p a = s0)) := by
  have h1 : (5 : Nat) ∉ (initStateDefault [] 0).torrent_in_progress := by decide
  have h2 : is_torrent_exists (initStateDefault [] 0) 5 = false := rfl
  exact ⟨⟨h1, h2⟩, announce_enqueue_exactly_once (initStateDefault [] 0) 5 1 2
    none none (0, 0) (3, 3) h1 h2⟩

/-- C7: a fetched info dictionary with no `files` key but with `length` L and
`name` N is stored (when the info-hash is not yet present) with the files
field normalized to `[{length: L, path: [N]}]` (src/app.py lines 62-65). -/
theorem single_file_normalization (s : CrawlerState) (ih L : Nat) (N : String)
    (t : TorrentDict) (hf : t.files = none) (hl : t.length = some L) (hn : t.name = some N)
    (hex : is_torrent_exists s ih = false) :
    process_peer s ih (.torrent t) =
      ({ s with db_torrents := s.db_torrents ++ [⟨ih, [⟨L, [N]⟩], N, s.now⟩] }, true) ∧
    (⟨ih, [⟨L, [N]⟩], N, s.now⟩ : TorrentMeta).files = [{ length := L, path := [N] }] := by
  constructor
  · simp [process_peer, build_metadata, decode_bytes, hf, hl, hn, hex]
  · rfl

theorem single_file_normalization_witness :
    ((⟨none, some 5, some "x"⟩ : TorrentDict).files = none ∧
      (⟨none, some 5, some "x"⟩ : TorrentDict).length = some 5 ∧
      (⟨none, some 5, some "x"⟩ : TorrentDict).name = some "x" ∧
      is_torrent_exists (initStateDefault [] 0) 9 = false) ∧
    (process_peer (initStateDefault [] 0) 9 (.torrent ⟨none, some 5, some "x"⟩) =
      ({ initStateDefault [] 0 with db_torrents :=
          (initStateDefault [] 0).db_torrents ++
            [⟨9, [⟨5, ["x"]⟩], "x", (initStateDefault [] 0).now⟩] }, true) ∧
    (⟨9, [⟨5, ["x"]⟩], "x", (initStateDefault [] 0).now⟩ : TorrentMeta).files =
      [{ length := 5, path := ["x"] }]) :=
  ⟨⟨rfl, rfl, rfl, rfl⟩,
    single_file_normalization (initStateDefault [] 0) 9 5 "x" ⟨none, some 5, some "x"⟩
      rfl rfl rfl rfl⟩

theorem process_peer_snd (s : CrawlerState) (ih : Nat) (o : FetchOutcome) :
    (process_peer s ih o).2 = fetch_ok o := by
  cases o with
  | exc => rfl
  | noTorrent => rfl
  | torrent t =>
    cases hf : t.files with
    | some fs =>
      cases hn : t.name with
      | some n =>
        simp only [process_peer, build_metadata, fetch_ok, hf, hn, Option.isSome,
          Option.some_bind, Option.bind_eq_bind, pure]
        split <;> rfl
      | none => simp [process_peer, build_metadata, fetch_ok, hf, hn]
    | none =>
      cases hl : t.length with
      | some len =>
        cases hn : t.name with
        | some n =>
          simp only [process_peer, build_metadata, fetch_ok, hf, hl, hn, Option.isSome,
            Option.some_bind, Option.bind_eq_bind, pure]
          split <;> rfl
        | none => simp [process_peer, build_metadata, fetch_ok, hf, hl, hn]
      | none => simp [process_peer, build_metadata, fetch_ok, hf, hl]

theorem process_peer_in_progress (s : CrawlerState) (ih : Nat) (o : FetchOutcome) :
    (process_peer s ih o).1.torrent_in_progress = s.torrent_in_progress := by
  cases o with
  | exc => rfl
  | noTorrent => rfl
  | torrent t =>
    simp only [process_peer]
    cases build_metadata ih s.now t with
    | none => rfl
    | some m =>
      simp only []
      split <;> rfl

theorem load_torrent_loop_spec (ih : Nat) (outcome : Peer → FetchOutcome) :
    ∀ (peers : List Peer) (s : CrawlerState),
      (load_torrent_loop s ih outcome peers).1.torrent_in_progress = s.torrent_in_progress ∧
      (load_torrent_loop s ih outcome peers).2 =
        peers.take (peers.findIdx (fun p => fetch_ok (outcome p)) + 1) := by
  intro peers
  induction peers with
  | nil => intro s; exact ⟨rfl, rfl⟩
  | cons p rest ih2 =>
    intro s
    simp only [load_torrent_loop, process_peer_snd]
    by_cases hb : fetch_ok (outcome p) = true
    · rw [if_pos hb]
      refine ⟨process_peer_in_progress s ih (outcome p), ?_⟩
      rw [List.findIdx_cons]
      simp [hb]
    · rw [if_neg hb]
      have hrec := ih2 (process_peer s ih (outcome p)).1
      refine ⟨by rw [hrec.1, process_peer_in_progress], ?_⟩
      rw [List.findIdx_cons]
      have hb2 : fetch_ok (outcome p) = false := by
        cases h3 : fetch_ok (outcome p)
        · rfl
        · exact absurd h3 hb
      simp only [hb2, cond_false]
      simp [hrec.2]

/-- C6: whenever `load_torrent` runs for an info-hash that is in the
in-progress set, the hash is removed from the set on exit no matter what the
per-peer outcomes were, and the peer iteration stops right after the first
successful peer (all peers are contacted when none succeeds)
(src/app.py lines 40-87). -/
theorem load_torrent_removes_in_progress (s : CrawlerState) (ih : Nat)
    (outcome : Peer → FetchOutcome) (peers : List Peer)
    (h : ih ∈ s.torrent_in_progress) :
    ∃ s2 contacted, load_torrent s ih outcome peers = some (s2, contacted) ∧
      ih ∉ s2.torrent_in_progress ∧
      contacted = peers.take (peers.findIdx (fun p => fetch_ok (outcome p)) + 1) := by
  have hspec := load_torrent_loop_spec ih outcome peers s
  unfold load_torrent
  rw [if_pos (by rw [hspec.1]; exact h)]
  exact ⟨_, _, rfl, by simp, hspec.2⟩

/-- The state used as C6's concrete witness input: info-hash 9 in progress. -/
def wState6 : CrawlerState :=
  { initStateDefault [] 0 with torrent_in_progress := {9} }

theorem load_torrent_removes_in_progress_witness :
    ((9 : Nat) ∈ wState6.torrent_in_progress) ∧
    (∃ s2 contacted,
      load_torrent wState6 9 (fun _ => FetchOutcome.exc) [(1, 2)] = some (s2, contacted) ∧
      (9 : Nat) ∉ s2.torrent_in_progress ∧
      contacted = [(1, 2)].take
        (([((1 : Nat), (2 : Nat))].findIdx (fun p => fetch_ok ((fun _ => FetchOutcome.exc) p)))
          + 1)) := by
  have h : (9 : Nat) ∈ wState6.torrent_in_progress := by decide
  exact ⟨h, load_torrent_removes_in_progress wState6 9 (fun _ => FetchOutcome.exc) [(1, 2)] h⟩

theorem update_peers_searcher_not_found (s : CrawlerState) (t : Nat) (n : Finset Node)
    (v : Finset Peer) (h : s.searchers.lookup t = none) :
    update_peers_searcher s t n v = s := by
  simp [update_peers_searcher, h]

theorem update_found_continue (s : CrawlerState) (t : Nat) (n : Finset Node) (v : Finset Peer)
    (sr : Searcher) (h : s.searchers.lookup t = some sr)
    (hstale : (fetch_k_closest_nodes (sr.nodes ∪ n) sr.info_hash 16).toFinset =
      (fetch_k_closest_nodes sr.nodes sr.info_hash 16).toFinset)
    (hpos : 0 < sr.attempts_count - 1) :
    (update_peers_searcher s t n v).searchers =
      s.searchers.filter (fun p => p.1 != t) ++
        [(t, ⟨sr.info_hash, sr.nodes ∪ n, sr.values ∪ v, sr.attempts_count - 1,
          sr.timestamp⟩)] ∧
    (update_peers_searcher s t n v).delivered = s.delivered := by
  simp [update_peers_searcher, h, hstale, hpos]

theorem update_found_deliver (s : CrawlerState) (t : Nat) (n : Finset Node) (v : Finset Peer)
    (sr : Searcher) (h : s.searchers.lookup t = some sr)
    (hstale : (fetch_k_closest_nodes (sr.nodes ∪ n) sr.info_hash 16).toFinset =
      (fetch_k_closest_nodes sr.nodes sr.info_hash 16).toFinset)
    (hnpos : ¬ 0 < sr.attempts_count - 1) :
    (update_peers_searcher s t n v).searchers = s.searchers.filter (fun p => p.1 != t) ∧
    (update_peers_searcher s t n v).delivered =
      s.delivered ++ [(sr.info_hash, sr.values ∪ v)] := by
  simp [update_peers_searcher, h, hstale, hnpos]

theorem processRounds_converges (t : Nat) :
    ∀ (rounds : List (Finset Node × Finset Peer)) (s : CrawlerState) (sr : Searcher),
      s.searchers.lookup t = some sr →
      sr.attempts_count = (rounds.length : Int) →
      rounds ≠ [] →
      StaleAllB s t rounds = true →
      (processRounds s t rounds).searchers.lookup t = none ∧
      (processRounds s t rounds).delivered =
        s.delivered ++ [(sr.info_hash, unionValues sr.values rounds)] := by
  intro rounds
  induction rounds with
  | nil => intro s sr _ _ hne _; exact absurd rfl hne
  | cons rv rest ih =>
    obtain ⟨n, v⟩ := rv
    intro s sr hlook hatt _ hstaleAll
    simp only [StaleAllB, Bool.and_eq_true] at hstaleAll
    have hstale : (fetch_k_closest_nodes (sr.nodes ∪ n) sr.info_hash 16).toFinset =
        (fetch_k_closest_nodes sr.nodes sr.info_hash 16).toFinset := by
      have h1 := hstaleAll.1
      unfold staleRoundB at h1
      rw [hlook] at h1
      exact of_decide_eq_true h1
    simp only [processRounds]
    cases rest with
    | nil =>
      have hnpos : ¬ 0 < sr.attempts_count - 1 := by
        simp at hatt
        omega
      have hstep := update_found_deliver s t n v sr hlook hstale hnpos
      simp only [processRounds]
      refine ⟨?_, ?_⟩
      · rw [hstep.1]
        exact lookup_filter_self s.searchers t
      · rw [hstep.2]
        simp [unionValues]
    | cons r2 rs =>
      have hpos : 0 < sr.attempts_count - 1 := by
        rw [hatt]
        simp
      have hstep := update_found_continue s t n v sr hlook hstale hpos
      have hlook2 : (update_peers_searcher s t n v).searchers.lookup t =
          some ⟨sr.info_hash, sr.nodes ∪ n, sr.values ∪ v, sr.attempts_count - 1,
            sr.timestamp⟩ := by
        rw [hstep.1]
        exact lookup_reinsert_self s.searchers t _
      have hatt2 : (⟨sr.info_hash, sr.nodes ∪ n, sr.values ∪ v, sr.attempts_count - 1,
          sr.timestamp⟩ : Searcher).attempts_count = (((r2 :: rs).length : Nat) : Int) := by
        simp
        rw [hatt]
        simp
      have hrec := ih (update_peers_searcher s t n v) _ hlook2 hatt2
        (by simp) hstaleAll.2
      refine ⟨hrec.1, ?_⟩
      rw [hrec.2, hstep.2]
      simp [unionValues]

/-- C2: a searcher with its initial budget of 8 attempts, fed 8 response
rounds each of which leaves the 16-closest set of the accumulated nodes
unchanged, is removed from the registry and delivers its accumulated peer set
via `peers_values_received` exactly once (the delivered log grows by exactly
the one entry, and further responses for its transaction id have no effect)
(src/crawler.py lines 118-152). -/
theorem searcher_convergence_delivers_once (s : CrawlerState) (t : Nat) (sr : Searcher)
    (rounds : List (Finset Node × Finset Peer))
    (h1 : s.searchers.lookup t = some sr)
    (h2 : sr.attempts_count = 8)
    (h3 : rounds.length = 8)
    (h4 : StaleAllB s t rounds = true) :
    (processRounds s t rounds).searchers.lookup t = none ∧
    (processRounds s t rounds).delivered =
      s.delivered ++ [(sr.info_hash, unionValues sr.values rounds)] ∧
    ∀ (n : Finset Node) (v : Finset Peer),
      update_peers_searcher (processRounds s t rounds) t n v = processRounds s t rounds := by
  have hne : rounds ≠ [] := by
    intro hz
    rw [hz] at h3
    simp at h3
  have hatt : sr.attempts_count = (rounds.length : Int) := by
    rw [h2, h3]
    rfl
  have hmain := processRounds_converges t rounds s sr h1 hatt hne h4
  refine ⟨hmain.1, hmain.2, ?_⟩
  intro n v
  exact update_peers_searcher_not_found _ t n v hmain.1

/-- The registry state used as C2's concrete witness input: one fresh
searcher for info-hash 7 under transaction id 1. -/
def wStateA : CrawlerState :=
  { initStateDefault [] 0 with searchers := [(1, ⟨7, ∅, ∅, 8, 0⟩)] }

/-- Eight response rounds that bring no new nodes or values. -/
def wRounds : List (Finset Node × Finset Peer) := List.replicate 8 (∅, ∅)

theorem searcher_convergence_delivers_once_witness :
    (wStateA.searchers.lookup 1 = some ⟨7, ∅, ∅, 8, 0⟩ ∧
      (⟨7, ∅, ∅, 8, 0⟩ : Searcher).attempts_count = 8 ∧
      wRounds.length = 8 ∧
      StaleAllB wStateA 1 wRounds = true) ∧
    ((processRounds wStateA 1 wRounds).searchers.lookup 1 = none ∧
      (processRounds wStateA 1 wRounds).delivered =
        wStateA.delivered ++ [((7 : Nat), unionValues ∅ wRounds)] ∧
      ∀ (n : Finset Node) (v : Finset Peer),
        update_peers_searcher (processRounds wStateA 1 wRounds) 1 n v =
          processRounds wStateA 1 wRounds) :=
  ⟨⟨rfl, rfl, rfl, by decide⟩,
    searcher_convergence_delivers_once wStateA 1 ⟨7, ∅, ∅, 8, 0⟩ wRounds rfl rfl rfl
      (by decide)⟩

/-- C10: processing a response for a live searcher leaves the candidate pool,
routing table, in-progress set, torrent store, sequence counter and clock
untouched, leaves every other registry entry unchanged, and whenever the
searcher is re-inserted its info-hash and creation timestamp are the original
ones, so the 60-second sweep deadline is always measured from creation
(src/crawler.py lines 130-152 and 270-274). -/
theorem update_searcher_frame (s : CrawlerState) (t : Nat) (nodes : Finset Node)
    (values : Finset Peer) (sr : Searcher) (h : s.searchers.lookup t = some sr) :
    (∀ u, u ≠ t → (update_peers_searcher s t nodes values).searchers.lookup u =
      s.searchers.lookup u) ∧
    (update_peers_searcher s t nodes values).candidates = s.candidates ∧
    (update_peers_searcher s t nodes values).routing_table = s.routing_table ∧
    (update_peers_searcher s t nodes values).torrent_in_progress = s.torrent_in_progress ∧
    (update_peers_searcher s t nodes values).db_torrents = s.db_torrents ∧
    (update_peers_searcher s t nodes values).searchers_seq = s.searchers_seq ∧
    (update_peers_searcher s t nodes values).now = s.now ∧
    (∀ sr2, (update_peers_searcher s t nodes values).searchers.lookup t = some sr2 →
      sr2.info_hash = sr.info_hash ∧ sr2.timestamp = sr.timestamp) := by
  simp only [update_peers_searcher, h]
  split <;> split <;>
    refine ⟨?_, rfl, rfl, rfl, rfl, rfl, rfl, ?_⟩ <;>
    first
      | (intro u hu; exact lookup_reinsert_ne s.searchers hu _)
      | (intro u hu; exact lookup_filter_ne s.searchers hu)
      | (intro sr2 h2; rw [lookup_reinsert_self] at h2; cases h2; exact ⟨rfl, rfl⟩)
      | (intro sr2 h2; rw [lookup_filter_self] at h2; cases h2)

/-- The registry state used as C10's concrete witness input. -/
def wStateB : CrawlerState :=
  { initStateDefault [] 0 with searchers := [(2, ⟨9, ∅, ∅, 8, 5⟩)] }

theorem update_searcher_frame_witness :
    (wStateB.searchers.lookup 2 = some ⟨9, ∅, ∅, 8, 5⟩) ∧
    ((∀ u, u ≠ 2 → (update_peers_searcher wStateB 2 ∅ ∅).searchers.lookup u =
        wStateB.searchers.lookup u) ∧
      (update_peers_searcher wStateB 2 ∅ ∅).candidates = wStateB.candidates ∧
      (update_peers_searcher wStateB 2 ∅ ∅).routing_table = wStateB.routing_table ∧
      (update_peers_searcher wStateB 2 ∅ ∅).torrent_in_progress =
        wStateB.torrent_in_progress ∧
      (update_peers_searcher wStateB 2 ∅ ∅).db_torrents = wStateB.db_torrents ∧
      (update_peers_searcher wStateB 2 ∅ ∅).searchers_seq = wStateB.searchers_seq ∧
      (update_peers_searcher wStateB 2 ∅ ∅).now = wStateB.now ∧
      (∀ sr2, (update_peers_searcher wStateB 2 ∅ ∅).searchers.lookup 2 = some sr2 →
        sr2.info_hash = (⟨9, ∅, ∅, 8, 5⟩ : Searcher).info_hash ∧
        sr2.timestamp = (⟨9, ∅, ∅, 8, 5⟩ : Searcher).timestamp)) :=
  ⟨rfl, update_searcher_frame wStateB 2 ∅ ∅ ⟨9, ∅, ∅, 8, 5⟩ rfl⟩

/-- The oracle used by the concrete C4/C5 inputs (its draws are never reached
on those failing paths). -/
def oracle0 : ROracle := ⟨false, ⟨0, 0, 0⟩, 0, []⟩

/-- C4 (amended): an internal failure while handling an inbound query (here a
query whose `a` dictionary is missing) makes `handle_message` send the KRPC
error `[202, "Server Error"]` echoing the query's transaction id to the
sender, and then RE-RAISE the exception (`raise` at src/crawler.py line 169),
so the failure does propagate out of the handler into the spawning task. -/
theorem handle_message_failure_replies_and_reraises (s : CrawlerState) (msg : Msg)
    (addr : Peer) (r : ROracle) (hy : msg.y = some "q") (ha : msg.a = none) :
    handle_message s msg addr r =
      ({ s with sent := s.sent ++ [SentMsg.error addr 202 "Server Error" msg.t] }, true) := by
  have hbody : handle_message_body s msg addr r = .error () := by
    simp only [handle_message_body, hy, Option.getD_some]
    rw [if_neg (by decide : ¬ ("q" : String) = "r"), if_pos trivial]
    simp only [handle_query, ha]
    rfl
  simp only [handle_message, hbody]

/-- The malformed query used as C4's concrete witness input: `y = "q"` but no
`a` dictionary. -/
def mNoArgs2 : Msg := ⟨some "q", some 2, none, none, none⟩

theorem handle_message_failure_replies_and_reraises_witness :
    (mNoArgs2.y = some "q" ∧ mNoArgs2.a = none) ∧
    handle_message (initStateDefault [] 0) mNoArgs2 (4, 4) oracle0 =
      ({ initStateDefault [] 0 with sent := (initStateDefault [] 0).sent ++
          [SentMsg.error (4, 4) 202 "Server Error" mNoArgs2.t] }, true) :=
  ⟨⟨rfl, rfl⟩,
    handle_message_failure_replies_and_reraises (initStateDefault [] 0) mNoArgs2 (4, 4)
      oracle0 rfl rfl⟩

/-- The malformed query used as C4's concrete counterexample input. -/
def mNoArgs : Msg := ⟨some "q", some 3, some "ping", none, none⟩

/-- C4 counterexample: handling this malformed query does NOT complete
without re-raising: the exception flag of `handle_message` is `true`, i.e.
the bare `raise` at src/crawler.py line 169 propagates the failure after the
error reply is sent, contradicting the claim that the failure is not
propagated further. -/
theorem query_failure_propagates :
    (handle_message (initStateDefault [] 0) mNoArgs (9, 9) oracle0).2 = true := by
  decide

/-- C5 (amended): inbound datagrams whose bencode decoding fails are dropped
silently with no reply and no state change, but a successfully decoded
message that is missing required keys is NOT silent: the handler's failure
triggers the KRPC error `[202, "Server Error"]` reply to the sender and the
exception propagates (src/crawler.py lines 39-44 and 154-169). -/
theorem malformed_inbound_policy (s : CrawlerState) (msg : Msg) (addr : Peer) (r : ROracle)
    (h : exceptFails (handle_message_body s msg addr r) = true) :
    datagram_received s none addr r = (s, false) ∧
    datagram_received s (some msg) addr r =
      ({ s with sent := s.sent ++ [SentMsg.error addr 202 "Server Error" msg.t] }, true) := by
  refine ⟨rfl, ?_⟩
  cases hb : handle_message_body s msg addr r with
  | ok s1 =>
    exfalso
    rw [hb] at h
    simp [exceptFails] at h
  | error e =>
    simp [datagram_received, handle_message, hb]

/-- The malformed reply used as C5's concrete witness input: `y = "r"` with
no transaction id and no `r` dictionary. -/
def mMalformedR2 : Msg := ⟨some "r", none, none, none, none⟩

theorem malformed_inbound_policy_witness :
    (exceptFails (handle_message_body (initStateDefault [] 0) mMalformedR2 (8, 8) oracle0)
      = true) ∧
    (datagram_received (initStateDefault [] 0) none (8, 8) oracle0 =
        (initStateDefault [] 0, false) ∧
      datagram_received (initStateDefault [] 0) (some mMalformedR2) (8, 8) oracle0 =
        ({ initStateDefault [] 0 with sent := (initStateDefault [] 0).sent ++
            [SentMsg.error (8, 8) 202 "Server Error" mMalformedR2.t] }, true)) :=
  ⟨rfl, malformed_inbound_policy (initStateDefault [] 0) mMalformedR2 (8, 8) oracle0 rfl⟩

/-- The malformed reply used as C5's concrete counterexample input: decodes
fine but has no `r` dictionary. -/
def mMalformedR : Msg := ⟨some "r", some 1, none, none, none⟩

/-- C5 counterexample: a decoded message missing its required keys is not
dropped silently: the engine replies with the KRPC error `[202, "Server
Error"]`, so a reply IS sent to the sender, contradicting the claim. -/
theorem malformed_decoded_message_not_silent :
    (datagram_received (initStateDefault [] 0) (some mMalformedR) (0, 0) oracle0).1.sent =
      [SentMsg.error (0, 0) 202 "Server Error" (some 1)] ∧
    (datagram_received (initStateDefault [] 0) (some mMalformedR) (0, 0) oracle0).1.sent ≠
      ([] : List SentMsg) :=
  ⟨by decide, by decide⟩

end Grapefruit
